import Mathlib

/-!
Verification of the CartIQ meal-planning pipeline against its design
specification.

The repository's client code (Login, SignUp, Dashboard pages) is embedded
directly from the JSX sources.  The server-side plan-generation pipeline
(validation layer, prompt builder, provider adapter, response normalizer,
plan request handler) is described by the specification and the repository's
documentation (CLAUDE.md, server/README.md, database/schema.sql); its Python
sources (`server/app/models.py`, `server/app/ai_service_multi.py`,
`server/app/main.py`) are not part of the provided sources, so those
components are modelled from the specification, as marked on each
definition.
-/

namespace CartIQ

/-! Section: Data model (spec section 3 and section 6, CLAUDE.md data models) -/

/-- Modelled from the spec: one pantry inventory entry
`{name, quantity, unit, expires_at?}` (spec section 6 request body,
`PantryItem` in the missing `server/app/models.py`). -/
structure PantryItem where
  name : String
  quantity : String
  unit : String
  expires_at : Option String
deriving DecidableEq

/-- Modelled from the spec: household goals
`{budget?, household_size?, dietary_restrictions?, preferences?}`
(spec section 6, `HouseholdGoals` in the missing `server/app/models.py`). -/
structure HouseholdGoals where
  budget : Option String
  household_size : Option Int
  dietary_restrictions : List String
  preferences : List String
deriving DecidableEq

/-- Modelled from the spec: the inbound plan request
`{intent, days, pantry, goals}` (spec sections 3 and 6,
`GeneratePlanRequest` in the missing `server/app/models.py`). -/
structure PlanRequest where
  intent : String
  days : Int
  pantry : List PantryItem
  goals : Option HouseholdGoals
deriving DecidableEq

/-! Section: Validation layer (spec section 4.5, CLAUDE.md security features) -/

/-- Modelled from the spec: the declarative validation layer of
`server/app/models.py` (missing from the sources).  Enumerated bounds
(spec section 4.5, CLAUDE.md lines 158-163): `intent` non-empty and at most
1000 characters, `days` an integer in [1,14], at most 100 pantry items,
`goals.household_size` in [1,50] when present (the same range as the
`household_goals.household_size` CHECK in `database/schema.sql`).  The
result is `Except.ok ()` on acceptance, or `Except.error f` where `f`
names the offending field of the `ValidationError`.  The spec states that
pantry item strings are also bounded in length, but gives those bounds no
numeric value, so they are not part of the model. -/
def validatePlanRequest (r : PlanRequest) : Except String Unit :=
  if r.intent.length = 0 then .error "intent"
  else if r.intent.length > 1000 then .error "intent"
  else if r.days < 1 ∨ r.days > 14 then .error "days"
  else if r.pantry.length > 100 then .error "pantry"
  else
    match r.goals with
    | none => .ok ()
    | some g =>
      match g.household_size with
      | none => .ok ()
      | some n => if n < 1 ∨ n > 50 then .error "household_size" else .ok ()

/-- The declared bounds of spec section 4.5, stated directly from the
spec's words: every field of the request is inside its range. -/
def PlanRequestValid (r : PlanRequest) : Prop :=
  0 < r.intent.length ∧ r.intent.length ≤ 1000 ∧
  1 ≤ r.days ∧ r.days ≤ 14 ∧
  r.pantry.length ≤ 100 ∧
  (∀ g, r.goals = some g → ∀ n, g.household_size = some n → 1 ≤ n ∧ n ≤ 50)

instance (r : PlanRequest) : Decidable (PlanRequestValid r) := by
  unfold PlanRequestValid
  exact inferInstance

/-- Field `f` of request `r` violates its declared bound. -/
def FieldViolated (r : PlanRequest) (f : String) : Prop :=
  (f = "intent" ∧ (r.intent.length = 0 ∨ r.intent.length > 1000)) ∨
  (f = "days" ∧ (r.days < 1 ∨ r.days > 14)) ∨
  (f = "pantry" ∧ r.pantry.length > 100) ∨
  (f = "household_size" ∧
    ∃ g, r.goals = some g ∧ ∃ n, g.household_size = some n ∧ (n < 1 ∨ n > 50))

/-! Section: Plan response shape (spec sections 3 and 6, server/README.md) -/

/-- Modelled from the spec: one meal plan entry
`{day, meal_type, dish_name, ingredients_used, estimated_cost}`
(spec section 6 success response, `MealPlanItem` in the missing
`server/app/models.py`). -/
structure Meal where
  day : Int
  meal_type : String
  dish_name : String
  ingredients_used : List String
  estimated_cost : String
deriving DecidableEq

/-- Modelled from the spec: one shopping list entry
`{name, quantity, estimated_cost, priority}` (spec section 6). -/
structure ShoppingItem where
  name : String
  quantity : String
  estimated_cost : String
  priority : String
deriving DecidableEq

/-- Modelled from the spec: the structured plan response
`{summary, meal_plan, shopping_list, total_estimated_cost, tips}`
(spec section 6, `GeneratePlanResponse` in the missing
`server/app/models.py`). -/
structure PlanResponse where
  summary : String
  meal_plan : List Meal
  shopping_list : List ShoppingItem
  total_estimated_cost : String
  tips : List String
deriving DecidableEq

/-! Section: Structured data (JSON) values and parsing

The response normalizer parses the provider's text as JSON.  The JSON
values and the parser below are modelled from the spec (section 4.3); the
Python implementation used `json.loads`, which is not among the provided
sources.  Numbers are modelled as integers: every numeric field of the
`PlanResponse` shape (`day`) is an integer, and all cost fields are
strings. -/

inductive Json where
  | null : Json
  | bool : Bool → Json
  | num : Int → Json
  | str : String → Json
  | arr : List Json → Json
  | obj : List (String × Json) → Json

/-- Whitespace recognised by the parser. -/
def isWs (c : Char) : Bool :=
  c = ' ' ∨ c = '\n' ∨ c = '\t' ∨ c = '\r'

/-- Drop leading whitespace. -/
def skipWs : List Char → List Char
  | [] => []
  | c :: cs => if isWs c then skipWs cs else c :: cs

/-- Translate an escaped character of a JSON string literal. -/
def unescape (c : Char) : Char :=
  if c = 'n' then '\n' else if c = 't' then '\t' else if c = 'r' then '\r' else c

/-- Parse the body of a JSON string literal (the opening quote already
consumed), returning the content and the remaining input. -/
def parseStrChars : List Char → Option (List Char × List Char)
  | [] => none
  | '"' :: cs => some ([], cs)
  | '\\' :: c :: cs =>
    (parseStrChars cs).map (fun p => (unescape c :: p.1, p.2))
  | c :: cs => (parseStrChars cs).map (fun p => (c :: p.1, p.2))

/-- Accumulate decimal digits into a natural number. -/
def digitsToNat (acc : Nat) : List Char → (Nat × List Char)
  | [] => (acc, [])
  | c :: cs =>
    if c.isDigit then digitsToNat (acc * 10 + (c.toNat - 48)) cs else (acc, c :: cs)

/-- Parse an integer JSON number (optional leading minus sign). -/
def parseNum : List Char → Option (Int × List Char)
  | [] => none
  | '-' :: c :: cs =>
    if c.isDigit then
      let p := digitsToNat (c.toNat - 48) cs
      some (-(p.1 : Int), p.2)
    else none
  | c :: cs =>
    if c.isDigit then
      let p := digitsToNat (c.toNat - 48) cs
      some ((p.1 : Int), p.2)
    else none

mutual

/-- Fueled recursive-descent parser for one JSON value; returns the value
and the remaining input. -/
def parseVal : Nat → List Char → Option (Json × List Char)
  | 0, _ => none
  | fuel + 1, cs =>
    match skipWs cs with
    | '{' :: rest =>
      match skipWs rest with
      | '}' :: rest2 => some (.obj [], rest2)
      | rest2 =>
        match parseMembers fuel rest2 with
        | some (ms, rest3) => some (.obj ms, rest3)
        | none => none
    | '[' :: rest =>
      match skipWs rest with
      | ']' :: rest2 => some (.arr [], rest2)
      | rest2 =>
        match parseElems fuel rest2 with
        | some (vs, rest3) => some (.arr vs, rest3)
        | none => none
    | '"' :: rest =>
      (parseStrChars rest).map (fun p => (.str (String.mk p.1), p.2))
    | 'n' :: 'u' :: 'l' :: 'l' :: rest => some (.null, rest)
    | 't' :: 'r' :: 'u' :: 'e' :: rest => some (.bool true, rest)
    | 'f' :: 'a' :: 'l' :: 's' :: 'e' :: rest => some (.bool false, rest)
    | rest => (parseNum rest).map (fun p => (.num p.1, p.2))

/-- Parse the members of a JSON object up to and including the closing
brace (assumes at least one member). -/
def parseMembers : Nat → List Char → Option (List (String × Json) × List Char)
  | 0, _ => none
  | fuel + 1, cs =>
    match skipWs cs with
    | '"' :: rest =>
      match parseStrChars rest with
      | some (key, rest2) =>
        match skipWs rest2 with
        | ':' :: rest3 =>
          match parseVal fuel rest3 with
          | some (v, rest4) =>
            match skipWs rest4 with
            | ',' :: rest5 =>
              match parseMembers fuel rest5 with
              | some (ms, rest6) => some ((String.mk key, v) :: ms, rest6)
              | none => none
            | '}' :: rest5 => some ([(String.mk key, v)], rest5)
            | _ => none
          | none => none
        | _ => none
      | none => none
    | _ => none

/-- Parse the elements of a JSON array up to and including the closing
bracket (assumes at least one element). -/
def parseElems : Nat → List Char → Option (List Json × List Char)
  | 0, _ => none
  | fuel + 1, cs =>
    match parseVal fuel cs with
    | some (v, rest) =>
      match skipWs rest with
      | ',' :: rest2 =>
        match parseElems fuel rest2 with
        | some (vs, rest3) => some (v :: vs, rest3)
        | none => none
      | ']' :: rest2 => some ([v], rest2)
      | _ => none
    | none => none

end

/-- Parse a complete JSON document: one value, with nothing but
whitespace after it. -/
def parseJsonChars (cs : List Char) : Option Json :=
  match parseVal (cs.length + 1) cs with
  | some (v, rest) => if skipWs rest = [] then some v else none
  | none => none

/-! Section: Response normalizer (spec section 4.3) -/

/-- Drop characters until the first opening brace (kept). -/
def dropToBrace : List Char → List Char
  | [] => []
  | c :: cs => if c = '{' then c :: cs else dropToBrace cs

/-- Drop characters until the first closing brace (kept). -/
def dropToClose : List Char → List Char
  | [] => []
  | c :: cs => if c = '}' then c :: cs else dropToClose cs

/-- Modelled from the spec: the candidate JSON span of a raw provider
response is the text from the first opening brace to the last closing
brace (spec section 4.3, quirk b); `none` when the text holds no such
span.  Stripping a fenced code block marker (quirk a) is subsumed: the
marker lies outside the span. -/
def extractSpan (cs : List Char) : Option (List Char) :=
  let sp := (dropToClose (dropToBrace cs).reverse).reverse
  if sp.isEmpty then none else some sp

/-- First binding of a key in a parsed JSON object. -/
def lookupField (fs : List (String × Json)) (k : String) : Option Json :=
  match fs with
  | [] => none
  | (k', v) :: rest => if k' = k then some v else lookupField rest k

/-- View a JSON value as a string. -/
def asStr : Json → Option String
  | .str s => some s
  | _ => none

/-- Required top-level string field: absent or non-string fails. -/
def getStrField (fs : List (String × Json)) (k : String) : Except String String :=
  match lookupField fs k with
  | some (.str s) => .ok s
  | some _ => .error ("field is not a string: " ++ k)
  | none => .error ("missing required field: " ++ k)

/-- Optional top-level list field: absent defaults to the empty list,
present values must be arrays (spec section 4.3: every missing optional
list field is filled with an empty sequence). -/
def getListField (fs : List (String × Json)) (k : String) : Except String (List Json) :=
  match lookupField fs k with
  | none => .ok []
  | some (.arr xs) => .ok xs
  | some _ => .error ("field is not a list: " ++ k)

/-- Modelled from the spec: map one parsed meal plan entry to a `Meal`;
`ingredients_used`, when absent, defaults to the empty list. -/
def toMeal : Json → Option Meal
  | .obj fs =>
    match lookupField fs "day" with
    | some (.num d) =>
      match lookupField fs "meal_type" with
      | some (.str mt) =>
        match lookupField fs "dish_name" with
        | some (.str dn) =>
          match lookupField fs "estimated_cost" with
          | some (.str ec) =>
            match lookupField fs "ingredients_used" with
            | none => some ⟨d, mt, dn, [], ec⟩
            | some (.arr xs) => (xs.mapM asStr).map (fun ing => ⟨d, mt, dn, ing, ec⟩)
            | some _ => none
          | _ => none
        | _ => none
      | _ => none
    | _ => none
  | _ => none

/-- Modelled from the spec: map one parsed shopping list entry to a
`ShoppingItem`. -/
def toShoppingItem : Json → Option ShoppingItem
  | .obj fs =>
    match lookupField fs "name" with
    | some (.str nm) =>
      match lookupField fs "quantity" with
      | some (.str q) =>
        match lookupField fs "estimated_cost" with
        | some (.str ec) =>
          match lookupField fs "priority" with
          | some (.str pr) => some ⟨nm, q, ec, pr⟩
          | _ => none
        | _ => none
      | _ => none
    | _ => none
  | _ => none

/-- Modelled from the spec: map a parsed JSON value to the `PlanResponse`
shape (spec sections 3, 4.3 and 6).  The required top-level fields are the
two non-list fields `summary` and `total_estimated_cost`; the three list
fields are optional and default to the empty sequence, as do each meal's
`ingredients_used`.  Any shape mismatch is an error. -/
def toPlanResponse (v : Json) : Except String PlanResponse :=
  match v with
  | .obj fs =>
    match getStrField fs "summary" with
    | .error e => .error e
    | .ok summ =>
      match getStrField fs "total_estimated_cost" with
      | .error e => .error e
      | .ok total =>
        match getListField fs "meal_plan" with
        | .error e => .error e
        | .ok mealJs =>
          match getListField fs "shopping_list" with
          | .error e => .error e
          | .ok shopJs =>
            match getListField fs "tips" with
            | .error e => .error e
            | .ok tipJs =>
              match mealJs.mapM toMeal with
              | none => .error "malformed meal plan entry"
              | some meals =>
                match shopJs.mapM toShoppingItem with
                | none => .error "malformed shopping list entry"
                | some items =>
                  match tipJs.mapM asStr with
                  | none => .error "malformed tips entry"
                  | some tips => .ok ⟨summ, meals, items, total, tips⟩
  | _ => .error "top-level value is not an object"

/-- The single error kind of the response normalizer
(spec sections 4.3 and 7). -/
inductive NormError where
  | malformed (reason : String)
deriving DecidableEq

/-- Modelled from the spec: the response normalizer (spec section 4.3,
the response-cleaning and `json.loads` stage of the missing
`server/app/ai_service_multi.py`).  Extract the candidate JSON span
(first opening brace to last closing brace), parse it as structured data,
and map it to the `PlanResponse` shape; every failure is a
`MalformedResponseError`. -/
def normalizeChars (cs : List Char) : Except NormError PlanResponse :=
  match extractSpan cs with
  | none => .error (.malformed "no JSON object found in response")
  | some sp =>
    match parseJsonChars sp with
    | none => .error (.malformed "response is not valid JSON")
    | some v =>
      match toPlanResponse v with
      | .error e => .error (.malformed e)
      | .ok p => .ok p

/-- The response normalizer on strings. -/
def normalizeResponse (s : String) : Except NormError PlanResponse :=
  normalizeChars s.toList

/-! Section: Prompt builder (spec section 4.2) -/

/-- Render one pantry item for the prompt. -/
def renderPantryItem (it : PantryItem) : String :=
  "- " ++ it.name ++ ": " ++ it.quantity ++ " " ++ it.unit ++
    (match it.expires_at with
     | some d => " (expires " ++ d ++ ")"
     | none => "")

/-- Render the household goals for the prompt. -/
def renderGoals : Option HouseholdGoals → String
  | none => "no stated goals"
  | some g =>
    "budget: " ++ (g.budget.getD "unspecified") ++
    "; household size: " ++
      (match g.household_size with
       | some n => toString n
       | none => "unspecified") ++
    "; dietary restrictions: " ++ String.intercalate ", " g.dietary_restrictions ++
    "; preferences: " ++ String.intercalate ", " g.preferences

/-- Modelled from the spec: the prompt builder (spec section 4.2, the
`_build_prompt` method of the missing `server/app/ai_service_multi.py`).
Pure textual substitution of the four inputs (intent, pantry list, goals
summary, day count) into a fixed template; total, so it never raises for
well-formed requests. -/
def buildPrompt (r : PlanRequest) : String :=
  "Plan meals for " ++ toString r.days ++ " days.\nIntent: " ++ r.intent ++
  "\nPantry:\n" ++ String.intercalate "\n" (r.pantry.map renderPantryItem) ++
  "\nGoals: " ++ renderGoals r.goals

/-! Section: Provider adapter and plan request handler (spec sections 4.1, 4.4) -/

/-- The three provider bindings (CLAUDE.md: Groq, OpenAI, Anthropic). -/
inductive ProviderId where
  | groq
  | openai
  | anthropic
deriving DecidableEq

/-- A provider stub: given the rendered prompt, the provider either
returns its raw text completion or fails with the message of a
`ProviderError` (spec section 4.1 output contract). -/
def ProviderStub : Type := String → Except String String

/-- The typed errors a plan-generation request can surface
(spec section 7 taxonomy). -/
inductive PlanError where
  | validation (field : String)
  | provider (msg : String)
  | malformed (reason : String)
  | internal (msg : String)
deriving DecidableEq

/-- Modelled from the spec: the plan request handler (spec section 4.4,
the `/generate-plan` endpoint of the missing `server/app/main.py` plus the
`generate_plan` method of the missing `server/app/ai_service_multi.py`).
Validate, build the prompt, invoke the provider, normalize; each failure
is surfaced as its typed error and nothing else is returned. -/
def handlePlan (provider : ProviderStub) (r : PlanRequest) : Except PlanError PlanResponse :=
  match validatePlanRequest r with
  | .error f => .error (.validation f)
  | .ok _ =>
    match provider (buildPrompt r) with
    | .error e => .error (.provider e)
    | .ok text =>
      match normalizeResponse text with
      | .error (.malformed reason) => .error (.malformed reason)
      | .ok p => .ok p

/-- Modelled from the spec: the handler instrumented with the number of
outbound provider invocations it performs (spec sections 4.1, 5 and 8:
one request yields exactly one outbound provider call, zero when
validation rejects, and a failed call is never retried). -/
def handlePlanCounted (provider : ProviderStub) (r : PlanRequest) :
    Except PlanError PlanResponse × Nat :=
  match validatePlanRequest r with
  | .error f => (.error (.validation f), 0)
  | .ok _ =>
    match provider (buildPrompt r) with
    | .error e => (.error (.provider e), 1)
    | .ok text =>
      match normalizeResponse text with
      | .error (.malformed reason) => (.error (.malformed reason), 1)
      | .ok p => (.ok p, 1)

/-- Modelled from the spec: the handler running against the provider
binding selected by the active provider identifier (spec section 4.1:
exactly one provider is active, chosen once from configuration). -/
def handleWithBinding (binding : ProviderId → ProviderStub)
    (active : ProviderId) (r : PlanRequest) : Except PlanError PlanResponse :=
  handlePlan (binding active) r

/-! Section: Client authentication pages (Login.jsx, SignUp.jsx)

These components are present in the sources and are embedded directly.
`handleSubmit` is split at its single external call: the synchronous
prefix up to the auth-service invocation (or early return), and for
SignUp the continuation that runs once the call resolves. -/

/-- Result of the synchronous prefix of a form submission: either an
early return with the updated component state and no external auth call,
or an auth call with the given arguments and the state as updated before
the call. -/
inductive SubmitStep (σ : Type) (α : Type) where
  | noCall (s : σ)
  | call (args : α) (s : σ)
deriving DecidableEq

/-- Component state of the Login page (Login.jsx `useState` hooks). -/
structure LoginState where
  email : String
  password : String
  error : String
  loading : Bool
deriving DecidableEq

/-- Login.jsx `handleSubmit` up to the `signIn` call: empty email or
password sets the error and returns; otherwise the error is cleared,
loading is set, and `signIn(email, password)` is invoked. -/
def loginSubmit (s : LoginState) : SubmitStep LoginState (String × String) :=
  if s.email = "" ∨ s.password = "" then
    .noCall { s with error := "Email and password are required" }
  else
    .call (s.email, s.password) { s with error := "", loading := true }

/-- Component state of the SignUp page (SignUp.jsx `useState` hooks). -/
structure SignUpState where
  email : String
  password : String
  firstName : String
  lastName : String
  error : String
  loading : Bool
  message : String
deriving DecidableEq

/-- SignUp.jsx `handleSubmit` up to the `signUp` call: any empty field
sets the error and returns; a password shorter than 6 characters sets the
error and returns; otherwise error and message are cleared, loading is
set, and `signUp(email, password, {first_name, last_name})` is invoked. -/
def signUpSubmit (s : SignUpState) :
    SubmitStep SignUpState (String × String × String × String) :=
  if s.email = "" ∨ s.password = "" ∨ s.firstName = "" ∨ s.lastName = "" then
    .noCall { s with error := "All fields are required" }
  else if s.password.length < 6 then
    .noCall { s with error := "Password must be at least 6 characters" }
  else
    .call (s.email, s.password, s.firstName, s.lastName)
      { s with error := "", message := "", loading := true }

/-- The user object of a resolved `signUp` call; `identities` may be
absent (the source reads it through optional chaining). -/
structure SignUpUser where
  identities : Option (List Unit)
deriving DecidableEq

/-- The data object of a resolved `signUp` call; `user` may be absent. -/
structure SignUpData where
  user : Option SignUpUser
deriving DecidableEq

/-- A resolved `signUp` call: `{ data, error }`, each possibly absent
(`error.message` is its message when present). -/
structure SignUpResult where
  data : Option SignUpData
  error : Option String
deriving DecidableEq

/-- The optional chain `data?.user?.identities` of SignUp.jsx. -/
def identitiesOf (res : SignUpResult) : Option (List Unit) :=
  (res.data.bind fun d => d.user).bind fun u => u.identities

/-- The test `data?.user?.identities?.length === 0` of SignUp.jsx: true
exactly when the whole chain is present and the list is empty. -/
def identitiesIsEmpty (res : SignUpResult) : Bool :=
  match identitiesOf res with
  | some l => l.isEmpty
  | none => false

/-- Observable outcome of the SignUp continuation: the component state
set after the call resolves, and whether navigation to /login was
scheduled via `setTimeout`. -/
structure SignUpOutcome where
  error : String
  message : String
  loading : Bool
  navScheduled : Bool
deriving DecidableEq

/-- SignUp.jsx `handleSubmit` after the `signUp` call resolves (the state
entering this continuation has error and message cleared): a returned
error is thrown and caught, setting the error message (with a fallback
when it is empty); an empty identities list reports the duplicate-account
error and returns; otherwise the success message is set and navigation to
/login is scheduled.  `loading` is reset in all paths (`finally`). -/
def signUpContinue (res : SignUpResult) : SignUpOutcome :=
  match res.error with
  | some msg =>
    { error := if msg = "" then "Failed to create account" else msg,
      message := "", loading := false, navScheduled := false }
  | none =>
    if identitiesIsEmpty res then
      { error := "An account with this email already exists",
        message := "", loading := false, navScheduled := false }
    else
      { error := "",
        message := "Account created! Check your email to verify your account.",
        loading := false, navScheduled := true }

/-! Section: Helper lemmas about span extraction -/

theorem dropToBrace_append (p r : List Char) (hp : '{' ∉ p) :
    dropToBrace (p ++ r) = dropToBrace r := by
  induction p with
  | nil => rfl
  | cons c cs ih =>
    have hc : ¬(c = '{') := fun h => hp (h ▸ List.mem_cons_self c cs)
    simp only [List.cons_append, dropToBrace, if_neg hc]
    exact ih (fun h => hp (List.mem_cons_of_mem c h))

theorem dropToBrace_of_head (s : List Char) (h : s.head? = some '{') :
    dropToBrace s = s := by
  cases s with
  | nil => simp at h
  | cons c cs =>
    simp only [List.head?_cons, Option.some.injEq] at h
    simp [dropToBrace, h]

theorem dropToClose_append (p r : List Char) (hp : '}' ∉ p) :
    dropToClose (p ++ r) = dropToClose r := by
  induction p with
  | nil => rfl
  | cons c cs ih =>
    have hc : ¬(c = '}') := fun h => hp (h ▸ List.mem_cons_self c cs)
    simp only [List.cons_append, dropToClose, if_neg hc]
    exact ih (fun h => hp (List.mem_cons_of_mem c h))

theorem dropToClose_of_head (s : List Char) (h : s.head? = some '}') :
    dropToClose s = s := by
  cases s with
  | nil => simp at h
  | cons c cs =>
    simp only [List.head?_cons, Option.some.injEq] at h
    simp [dropToClose, h]

/-- The candidate-span rule of spec section 4.3 on a wrapped payload: when
the surrounding text holds no braces and the payload runs from an opening
to a closing brace, the extracted span is exactly the payload. -/
theorem extractSpan_wrap (p s q : List Char)
    (hp : '{' ∉ p) (hq : '}' ∉ q)
    (hh : s.head? = some '{') (hl : s.getLast? = some '}') :
    extractSpan (p ++ s ++ q) = some s := by
  have hs_ne : s ≠ [] := by
    intro h
    rw [h] at hh
    simp at hh
  have h1 : dropToBrace (p ++ s ++ q) = s ++ q := by
    rw [List.append_assoc, dropToBrace_append p (s ++ q) hp]
    apply dropToBrace_of_head
    cases s with
    | nil => simp at hh
    | cons c cs =>
      simp only [List.head?_cons, Option.some.injEq] at hh
      simp [hh]
  have h2 : dropToClose ((s ++ q).reverse) = s.reverse := by
    rw [List.reverse_append, dropToClose_append q.reverse s.reverse (by simpa using hq)]
    apply dropToClose_of_head
    rw [List.head?_reverse]
    exact hl
  unfold extractSpan
  rw [h1, h2, List.reverse_reverse]
  simp [hs_ne]

/-! Section: Claim theorems for the response normalizer -/

/-- Claim C4: for every well-formed `PlanResponse`-shaped JSON payload,
the response normalizer applied to that payload wrapped in a fenced code
block marker, or preceded and/or followed by arbitrary prose holding no
extra braces, yields the same structured object as the normalizer applied
to the unwrapped payload; the candidate JSON span is the text from the
first opening brace to the last closing brace (`extractSpan`). -/
theorem normalizer_tolerates_wrapping (p s q : List Char) (resp : PlanResponse)
    (hp : '{' ∉ p ∧ '}' ∉ p) (hq : '{' ∉ q ∧ '}' ∉ q)
    (hh : s.head? = some '{') (hl : s.getLast? = some '}')
    (hs : normalizeChars s = Except.ok resp) :
    normalizeChars (p ++ s ++ q) = Except.ok resp := by
  have e1 : extractSpan (p ++ s ++ q) = some s :=
    extractSpan_wrap p s q hp.1 hq.2 hh hl
  have e2 : extractSpan s = some s := by
    have := extractSpan_wrap [] s [] (List.not_mem_nil _) (List.not_mem_nil _) hh hl
    simpa using this
  rw [normalizeChars, e1]
  rw [normalizeChars, e2] at hs
  exact hs

/-- Claim C5: for every well-formed `PlanResponse`-shaped JSON string
(one JSON object spanning the whole text, denoting a value of the
expected shape), the response normalizer succeeds and returns exactly the
structured object that string denotes. -/
theorem normalizer_roundtrip (s : List Char) (v : Json) (resp : PlanResponse)
    (hh : s.head? = some '{') (hl : s.getLast? = some '}')
    (hjson : parseJsonChars s = some v) (hshape : toPlanResponse v = Except.ok resp) :
    normalizeChars s = Except.ok resp := by
  have e2 : extractSpan s = some s := by
    have := extractSpan_wrap [] s [] (List.not_mem_nil _) (List.not_mem_nil _) hh hl
    simpa using this
  simp only [normalizeChars, e2, hjson, hshape]

/-- Claim C6: for every input text holding no balanced brace span, or
whose first-open-brace-to-last-close-brace span does not parse as valid
structured data, or whose parsed span lacks a required top-level field,
the response normalizer fails with a `MalformedResponseError` — and its
result type `Except NormError PlanResponse` admits no other error kind. -/
theorem normalizer_fails_malformed (cs : List Char)
    (h : extractSpan cs = none ∨
      ∃ sp, extractSpan cs = some sp ∧
        (parseJsonChars sp = none ∨
          ∃ fs, parseJsonChars sp = some (.obj fs) ∧
            (lookupField fs "summary" = none ∨
             lookupField fs "total_estimated_cost" = none))) :
    ∃ r, normalizeChars cs = Except.error (.malformed r) := by
  rcases h with hnone | ⟨sp, hsp, hbad⟩
  · exact ⟨_, by rw [normalizeChars, hnone]⟩
  · rcases hbad with hfail | ⟨fs, hjson, hmiss⟩
    · exact ⟨"response is not valid JSON", by simp only [normalizeChars, hsp, hfail]⟩
    · have hterr : ∃ e, toPlanResponse (.obj fs) = Except.error e := by
        rcases hmiss with h1 | h2
        · exact ⟨"missing required field: " ++ "summary",
            by simp only [toPlanResponse, getStrField, h1]⟩
        · cases hsum : getStrField fs "summary" with
          | error e => exact ⟨e, by simp only [toPlanResponse, hsum]⟩
          | ok summ =>
            refine ⟨"missing required field: " ++ "total_estimated_cost", ?_⟩
            simp only [toPlanResponse, hsum]
            simp only [getStrField, h2]
      rcases hterr with ⟨e, he⟩
      exact ⟨e, by simp only [normalizeChars, hsp, hjson, he]⟩

/-- Claim C7: for every `PlanResponse` produced by a successful
normalization, each list-valued field is present: when `meal_plan`,
`shopping_list` or `tips` is absent from the top-level source object, the
returned field equals the empty sequence, and when a meal entry lacks
`ingredients_used`, that field equals the empty sequence — never an
undefined or absent value (the `PlanResponse` structure has no optional
fields). -/
theorem normalizer_list_defaults (fs : List (String × Json)) (p : PlanResponse)
    (mfs : List (String × Json)) (m : Meal) :
    (toPlanResponse (.obj fs) = Except.ok p →
       (lookupField fs "meal_plan" = none → p.meal_plan = []) ∧
       (lookupField fs "shopping_list" = none → p.shopping_list = []) ∧
       (lookupField fs "tips" = none → p.tips = [])) ∧
    (toMeal (.obj mfs) = some m →
       lookupField mfs "ingredients_used" = none → m.ingredients_used = []) := by
  constructor
  · intro h
    simp only [toPlanResponse] at h
    repeat' split at h
    all_goals try exact Except.noConfusion h
    refine ⟨fun hml => ?_, fun hsl => ?_, fun htp => ?_⟩ <;>
      (simp_all [getListField, List.mapM.loop]; rw [← h])
  · intro h hnone
    simp only [toMeal] at h
    repeat' split at h
    all_goals first
      | exact Option.noConfusion h
      | (injection h with h'; subst h'; rfl)
      | simp_all

/-! Section: Claim theorems for validation and the request handler -/

/-- Claim C1: the validation layer accepts exactly those requests whose
fields satisfy the declared bounds (`intent` non-empty and at most 1000
characters, `days` in [1,14], at most 100 pantry items,
`goals.household_size` in [1,50] when present), and any rejection is a
`ValidationError` naming an offending field. -/
theorem validation_accepts_iff_bounds (r : PlanRequest) :
    (validatePlanRequest r = Except.ok () ↔ PlanRequestValid r) ∧
    (∀ f, validatePlanRequest r = Except.error f → FieldViolated r f) := by
  obtain ⟨intent, days, pantry, goals⟩ := r
  unfold validatePlanRequest PlanRequestValid FieldViolated
  dsimp only
  by_cases h0 : intent.length = 0
  · rw [if_pos h0]
    refine ⟨⟨fun h => Except.noConfusion h, fun hv => absurd hv.1 (by omega)⟩, ?_⟩
    intro f hf
    injection hf with hf'
    exact Or.inl ⟨hf'.symm, Or.inl h0⟩
  · rw [if_neg h0]
    by_cases h1 : intent.length > 1000
    · rw [if_pos h1]
      refine ⟨⟨fun h => Except.noConfusion h, fun hv => absurd hv.2.1 (by omega)⟩, ?_⟩
      intro f hf
      injection hf with hf'
      exact Or.inl ⟨hf'.symm, Or.inr h1⟩
    · rw [if_neg h1]
      by_cases h2 : days < 1 ∨ days > 14
      · rw [if_pos h2]
        refine ⟨⟨fun h => Except.noConfusion h, fun hv => ?_⟩, ?_⟩
        · rcases h2 with h2 | h2
          · exact absurd hv.2.2.1 (by omega)
          · exact absurd hv.2.2.2.1 (by omega)
        · intro f hf
          injection hf with hf'
          exact Or.inr (Or.inl ⟨hf'.symm, h2⟩)
      · rw [if_neg h2]
        by_cases h3 : pantry.length > 100
        · rw [if_pos h3]
          refine ⟨⟨fun h => Except.noConfusion h,
            fun hv => absurd hv.2.2.2.2.1 (by omega)⟩, ?_⟩
          intro f hf
          injection hf with hf'
          exact Or.inr (Or.inr (Or.inl ⟨hf'.symm, h3⟩))
        · rw [if_neg h3]
          rcases goals with _ | g
          · refine ⟨⟨fun _ => ⟨by omega, by omega, by omega, by omega, by omega,
              fun g' hg' => nomatch hg'⟩, fun _ => rfl⟩,
              fun f hf => Except.noConfusion hf⟩
          · dsimp only
            rcases hh : g.household_size with _ | n
            · refine ⟨⟨fun _ => ⟨by omega, by omega, by omega, by omega, by omega, ?_⟩,
                fun _ => rfl⟩, fun f hf => Except.noConfusion hf⟩
              intro g' hg' n' hn'
              injection hg' with e
              subst e
              rw [hh] at hn'
              exact Option.noConfusion hn'
            · dsimp only
              by_cases h5 : n < 1 ∨ n > 50
              · rw [if_pos h5]
                refine ⟨⟨fun h => Except.noConfusion h, fun hv => ?_⟩, ?_⟩
                · have hb := hv.2.2.2.2.2 g rfl n hh
                  rcases h5 with h5 | h5 <;> omega
                · intro f hf
                  injection hf with hf'
                  exact Or.inr (Or.inr (Or.inr ⟨hf'.symm, g, rfl, n, hh, h5⟩))
              · rw [if_neg h5]
                refine ⟨⟨fun _ => ⟨by omega, by omega, by omega, by omega, by omega, ?_⟩,
                  fun _ => rfl⟩, fun f hf => Except.noConfusion hf⟩
                intro g' hg' n' hn'
                injection hg' with e
                subst e
                rw [hh] at hn'
                injection hn' with e2
                subst e2
                omega

/-- Claim C2: the counted handler agrees with the handler, performs zero
provider invocations on every request that fails validation, and exactly
one provider invocation on every request that passes validation — also
when that single call fails (no retry). -/
theorem handler_single_provider_call (provider : ProviderStub) (r : PlanRequest) :
    (handlePlanCounted provider r).1 = handlePlan provider r ∧
    (∀ f, validatePlanRequest r = Except.error f →
      (handlePlanCounted provider r).2 = 0) ∧
    (validatePlanRequest r = Except.ok () →
      (handlePlanCounted provider r).2 = 1) := by
  refine ⟨?_, ?_, ?_⟩
  · unfold handlePlan handlePlanCounted
    rcases validatePlanRequest r with f | u
    · rfl
    · dsimp only
      rcases provider (buildPrompt r) with e | t
      · rfl
      · dsimp only
        rcases normalizeResponse t with e | p
        · cases e
          rfl
        · rfl
  · intro f hf
    simp only [handlePlanCounted, hf]
  · intro hok
    simp only [handlePlanCounted, hok]
    rcases provider (buildPrompt r) with e | t
    · rfl
    · dsimp only
      rcases normalizeResponse t with e | p
      · cases e
        rfl
      · rfl

/-- Claim C3: every plan-generation request is all-or-nothing — the
handler either returns a complete `PlanResponse`, or exactly one typed
error among `ValidationError`, `ProviderError`, `MalformedResponseError`
and the internal kind; the result type `Except PlanError PlanResponse`
carries no partial plan data alongside a failure and admits no further
unnamed outcome. -/
theorem handler_all_or_nothing (provider : ProviderStub) (r : PlanRequest) :
    (∃ p, handlePlan provider r = Except.ok p) ∨
    (∃ f, handlePlan provider r = Except.error (.validation f)) ∨
    (∃ m, handlePlan provider r = Except.error (.provider m)) ∨
    (∃ m, handlePlan provider r = Except.error (.malformed m)) ∨
    (∃ m, handlePlan provider r = Except.error (.internal m)) := by
  unfold handlePlan
  rcases validatePlanRequest r with f | u
  · exact Or.inr (Or.inl ⟨f, rfl⟩)
  · dsimp only
    rcases provider (buildPrompt r) with e | t
    · exact Or.inr (Or.inr (Or.inl ⟨e, rfl⟩))
    · dsimp only
      rcases normalizeResponse t with e | p
      · cases e with
        | malformed reason => exact Or.inr (Or.inr (Or.inr (Or.inl ⟨reason, rfl⟩)))
      · exact Or.inl ⟨p, rfl⟩

/-- Claim C8: swapping the active provider identifier among the three
bindings, with each binding stubbed to the same completion behavior,
leaves the handler's observable result unchanged — the same input yields
the same `PlanResponse` or the same error. -/
theorem provider_substitutability (binding : ProviderId → ProviderStub)
    (a b : ProviderId) (r : PlanRequest)
    (h : ∀ prompt, binding a prompt = binding b prompt) :
    handleWithBinding binding a r = handleWithBinding binding b r := by
  unfold handleWithBinding handlePlan
  rcases validatePlanRequest r with f | u
  · rfl
  · dsimp only
    rw [h (buildPrompt r)]

/-! Section: Claim theorems for the client authentication pages -/

/-- Claim C9: every Login or SignUp submission with an empty required
field, and every SignUp submission whose password is shorter than 6
characters, sets a non-empty local error message, never invokes the
external auth operation (the step is `noCall`), and leaves every other
piece of component state unchanged (the returned state is the input state
with only `error` replaced). -/
theorem form_validation_blocks_auth (sL : LoginState) (sS : SignUpState) :
    ((sL.email = "" ∨ sL.password = "") →
      loginSubmit sL = .noCall { sL with error := "Email and password are required" }) ∧
    ((sS.email = "" ∨ sS.password = "" ∨ sS.firstName = "" ∨ sS.lastName = "") →
      signUpSubmit sS = .noCall { sS with error := "All fields are required" }) ∧
    (sS.password.length < 6 →
      ∃ msg, msg ≠ "" ∧ signUpSubmit sS = .noCall { sS with error := msg }) := by
  refine ⟨fun h => ?_, fun h => ?_, fun h => ?_⟩
  · rw [loginSubmit, if_pos h]
  · rw [signUpSubmit, if_pos h]
  · by_cases h1 : sS.email = "" ∨ sS.password = "" ∨ sS.firstName = "" ∨ sS.lastName = ""
    · exact ⟨"All fields are required", by decide, by rw [signUpSubmit, if_pos h1]⟩
    · exact ⟨"Password must be at least 6 characters", by decide,
        by rw [signUpSubmit, if_neg h1, if_pos h]⟩

/-- Claim C10 counterexample: the claim states that navigation to /login
is scheduled only when `signUp` succeeds with a non-empty identities
list, but when `signUp` resolves with no error and no data object (so the
optional chain `data?.user?.identities` is absent), the strict-equality
test `identities?.length === 0` is false and the success path runs: the
component schedules navigation although no identities list is present at
all. -/
theorem signup_nav_without_identities :
    (signUpContinue ⟨none, none⟩).navScheduled = true ∧
    identitiesOf ⟨none, none⟩ = none := ⟨rfl, rfl⟩

/-- Claim C10, amended: when `signUp` returns without error and the
identities chain is a present empty list, the client reports the
duplicate-account error, does not set the success message, and does not
schedule navigation; navigation to /login is scheduled exactly when
`signUp` returns without error and the identities chain is not a present
empty list (in particular also when `data`, `user` or `identities` is
absent). -/
theorem signup_duplicate_detection (res : SignUpResult) :
    (res.error = none → identitiesIsEmpty res = true →
      signUpContinue res = ⟨"An account with this email already exists", "", false, false⟩) ∧
    ((signUpContinue res).navScheduled = true ↔
      (res.error = none ∧ identitiesIsEmpty res = false)) := by
  constructor
  · intro he hid
    rw [signUpContinue, he]
    dsimp only
    rw [if_pos hid]
  · rcases he : res.error with _ | msg
    · cases hid : identitiesIsEmpty res
      · rw [signUpContinue, he]
        dsimp only
        rw [if_neg (by rw [hid]; exact Bool.false_ne_true)]
        simp
      · rw [signUpContinue, he]
        dsimp only
        rw [if_pos hid]
        simp
    · rw [signUpContinue, he]
      simp

/-! Section: Concrete instances used by the witness theorems -/

/-- A minimal well-formed `PlanResponse`-shaped JSON payload. -/
def exBody : List Char :=
  "\x7b\"summary\":\"s\",\"total_estimated_cost\":\"$1\"\x7d".toList

/-- The structured object `exBody` denotes. -/
def exPlan : PlanResponse := ⟨"s", [], [], "$1", []⟩

/-- The JSON value `exBody` denotes. -/
def exJson : Json := .obj [("summary", .str "s"), ("total_estimated_cost", .str "$1")]

/-- Leading prose and fence marker with no braces. -/
def exPre : List Char := "Sure! Here is your plan:\n```json\n".toList

/-- Trailing fence marker and prose with no braces. -/
def exPost : List Char := "\n```\nEnjoy!".toList

/-- The fields of `exBody` as a parsed object. -/
def exFields : List (String × Json) :=
  [("summary", .str "s"), ("total_estimated_cost", .str "$1")]

/-- A meal entry with no `ingredients_used` field. -/
def exMealFields : List (String × Json) :=
  [("day", .num 1), ("meal_type", .str "breakfast"),
   ("dish_name", .str "Eggs"), ("estimated_cost", .str "$2")]

/-- The meal `exMealFields` denotes. -/
def exMeal : Meal := ⟨1, "breakfast", "Eggs", [], "$2"⟩

/-- A valid plan request (spec section 8, scenario A). -/
def rGood : PlanRequest :=
  ⟨"Plan meals for the week", 7, [⟨"Rice", "2", "cups", none⟩],
   some ⟨some "under $30", some 2, [], ["quick meals"]⟩⟩

/-- An invalid plan request: `days = 0` (spec section 8, scenario B). -/
def rBad : PlanRequest := ⟨"Plan meals", 0, [], none⟩

/-- A provider stub that always fails. -/
def providerDown : ProviderStub := fun _ => Except.error "timeout"

/-- Every provider identifier bound to the same failing stub. -/
def stubAll : ProviderId → ProviderStub := fun _ => providerDown

/-- A Login state with an empty email. -/
def sLW : LoginState := ⟨"", "pw", "", false⟩

/-- A SignUp state with all fields filled but a 3-character password. -/
def sSW : SignUpState := ⟨"a@b.c", "abc", "Ann", "Lee", "", false, ""⟩

/-- A resolved `signUp` call with no error and a present empty
identities list (the duplicate-account shape). -/
def resDup : SignUpResult := ⟨some ⟨some ⟨some []⟩⟩, none⟩

/-! Section: Witness theorems -/

/-- Witness for claim C1: the request with `days = 0` is rejected with a
`ValidationError` naming `days`, and the scenario-A request is
accepted. -/
theorem validation_accepts_iff_bounds_witness :
    (validatePlanRequest rBad = Except.error "days" ∧ FieldViolated rBad "days") ∧
    validatePlanRequest rGood = Except.ok () :=
  ⟨⟨rfl, (validation_accepts_iff_bounds rBad).2 "days" rfl⟩,
   (validation_accepts_iff_bounds rGood).1.mpr (by decide)⟩

/-- Witness for claim C2: a valid request makes exactly one provider
call even though the call fails, and the `days = 0` request makes
none. -/
theorem handler_single_provider_call_witness :
    (handlePlanCounted providerDown rGood).2 = 1 ∧
    (handlePlanCounted providerDown rBad).2 = 0 :=
  ⟨(handler_single_provider_call providerDown rGood).2.2 rfl,
   (handler_single_provider_call providerDown rBad).2.1 "days" rfl⟩

/-- Witness for claim C4: the payload wrapped in prose and a fenced code
block marker normalizes to the same structured object as the bare
payload. -/
theorem normalizer_tolerates_wrapping_witness :
    normalizeChars (exPre ++ exBody ++ exPost) = Except.ok exPlan :=
  normalizer_tolerates_wrapping exPre exBody exPost exPlan
    ⟨by decide, by decide⟩ ⟨by decide, by decide⟩ rfl rfl rfl

/-- Witness for claim C5: the bare well-formed payload normalizes to the
object it denotes. -/
theorem normalizer_roundtrip_witness :
    normalizeChars exBody = Except.ok exPlan :=
  normalizer_roundtrip exBody exJson exPlan rfl rfl rfl rfl

/-- Witness for claim C6: text with no brace span fails with a
`MalformedResponseError`. -/
theorem normalizer_fails_malformed_witness :
    ∃ r, normalizeChars ("no json here".toList) = Except.error (.malformed r) :=
  normalizer_fails_malformed ("no json here".toList) (Or.inl (by decide))

/-- Witness for claim C7: a payload with no `meal_plan`, `shopping_list`
or `tips` fields yields empty sequences, and a meal entry with no
`ingredients_used` field yields an empty sequence. -/
theorem normalizer_list_defaults_witness :
    exPlan.meal_plan = [] ∧ exPlan.shopping_list = [] ∧ exPlan.tips = [] ∧
    exMeal.ingredients_used = [] := by
  have h := normalizer_list_defaults exFields exPlan exMealFields exMeal
  exact ⟨(h.1 rfl).1 rfl, (h.1 rfl).2.1 rfl, (h.1 rfl).2.2 rfl, h.2 rfl rfl⟩

/-- Witness for claim C8: with all three identifiers bound to the same
stub, switching the active provider from Groq to OpenAI leaves the
handler's result unchanged. -/
theorem provider_substitutability_witness :
    handleWithBinding stubAll .groq rGood = handleWithBinding stubAll .openai rGood :=
  provider_substitutability stubAll .groq .openai rGood (fun _ => rfl)

/-- Witness for claim C9: an empty Login email sets the error and makes
no auth call, and a 3-character SignUp password sets an error and makes
no auth call. -/
theorem form_validation_blocks_auth_witness :
    loginSubmit sLW = .noCall { sLW with error := "Email and password are required" } ∧
    (∃ msg, msg ≠ "" ∧ signUpSubmit sSW = .noCall { sSW with error := msg }) :=
  ⟨(form_validation_blocks_auth sLW sSW).1 (Or.inl rfl),
   (form_validation_blocks_auth sLW sSW).2.2 (by decide)⟩

/-- Witness for the amended claim C10: a resolved `signUp` call with a
present empty identities list produces the duplicate-account error, no
success message, and no scheduled navigation. -/
theorem signup_duplicate_detection_witness :
    signUpContinue resDup =
      ⟨"An account with this email already exists", "", false, false⟩ :=
  (signup_duplicate_detection resDup).1 rfl rfl

end CartIQ
